import Mathlib

/-!
Shallow embedding of the shape/layout planning and kernel-selection logic of
`jaxlib/cusolver.py` (batched GPU linear-algebra custom-call builders).

Each Python free function (`trsm`, `getrf`, `geqrf`, `orgqr`, `syevd`,
`gesvd`) is embedded as a Lean function over tensor shapes.  The external
descriptor builders (`build_*_descriptor`) return a workspace size and an
opaque blob; the workspace size is modelled as an explicit `lwork` argument
and the opaque blob is dropped (no claim mentions it).  The emitted
`CustomCall` is modelled as a `CallSpec` value (kernel name, operand
shapes-with-layout, result-tuple shapes-with-layout); returning `.ok`
carries exactly one emitted call, returning `.error` means the Python code
raised before `c.CustomCall`, hence no call was issued.  Python exceptions
are mapped to the spec's error taxonomy: `NotImplementedError` on a dtype
becomes `unsupportedType`, the trsm `ValueError` becomes `shapeMismatch`
(carrying the two shapes the message names), the orgqr prefix `assert`
becomes `shapeMismatch` on the two compared prefixes,
`NotImplementedError` for conjugation-without-transposition becomes
`unsupportedConfiguration`, the `assert len(dims) >= 2` guards become
`rankError`, and the `assert m == n` in syevd becomes `dimensionMismatch`.
-/

/-- Element types appearing in the module: the four dtypes `_real_type`
supports plus the `int32`/`int8` auxiliary types used for pivots, status
codes and byte workspaces. -/
inductive Dtype where
  | float32
  | float64
  | complex64
  | complex128
  | int32
  | int8
  deriving DecidableEq, Repr, Fintype

/-- Error taxonomy of the planning layer (section 7 of the design):
each constructor corresponds to one `raise`/`assert` site in the source. -/
inductive Err where
  | unsupportedType (d : Dtype)
  | rankError
  | shapeMismatch (s1 s2 : List Nat)
  | dimensionMismatch
  | unsupportedConfiguration
  | indexError
  deriving DecidableEq, Repr

deriving instance DecidableEq for Except

/-- A tensor shape: element type plus ordered dimension sizes. -/
structure TensorShape where
  dtype : Dtype
  dims : List Nat
  deriving DecidableEq, Repr

/-- A shape together with its explicit minor-to-major layout, as passed to
`_Shape.array_shape(dtype, dims, layout)`. -/
structure ShapeWithLayout where
  dtype : Dtype
  dims : List Nat
  layout : List Nat
  deriving DecidableEq, Repr

/-- The emitted custom call: kernel name, operand shapes-with-layout and
the result tuple's shapes-with-layout (`shape_with_layout` of the
`c.CustomCall`). -/
structure CallSpec where
  kernel : String
  operands : List ShapeWithLayout
  results : List ShapeWithLayout
  deriving DecidableEq, Repr

/-- `_real_type(dtype)`: the real equivalent of a dtype; raises
`NotImplementedError` (modelled as `unsupportedType`) on anything outside
the four supported dtypes. -/
def _real_type (dtype : Dtype) : Except Err Dtype :=
  if dtype = Dtype.float32 then .ok .float32
  else if dtype = Dtype.float64 then .ok .float64
  else if dtype = Dtype.complex64 then .ok .float32
  else if dtype = Dtype.complex128 then .ok .float64
  else .error (.unsupportedType dtype)

/-- `_prod = lambda xs: reduce(operator.mul, xs, 1)`. -/
def _prod (xs : List Nat) : Nat := xs.foldl (fun x y => x * y) 1

/-- `dims[:-2]`: the batch-dimension prefix of a dimension list. -/
def batchDims (dims : List Nat) : List Nat := dims.take (dims.length - 2)

/-- `dims[-2]`: the row count of the trailing matrix. -/
def matRows (dims : List Nat) : Nat := dims.getD (dims.length - 2) 0

/-- `dims[-1]`: the column count of the trailing matrix. -/
def matCols (dims : List Nat) : Nat := dims.getD (dims.length - 1) 0

/-- `(num_bd, num_bd + 1) + tuple(range(num_bd - 1, -1, -1))`: the layout
used for every batched 2-D matrix operand and result. -/
def layout2d (num_bd : Nat) : List Nat :=
  [num_bd, num_bd + 1] ++ (List.range num_bd).reverse

/-- `tuple(range(num_bd, -1, -1))`: the layout used for every 1-D
per-batch derived tensor (pivots, tau, eigenvalues). -/
def layout1d (num_bd : Nat) : List Nat :=
  (List.range (num_bd + 1)).reverse

/-- `tuple(range(num_bd - 1, -1, -1))`: the layout used for every
per-batch scalar tensor (status codes). -/
def layout0d (num_bd : Nat) : List Nat :=
  (List.range num_bd).reverse

/-- Shape of `c.Slice(x, starts, limits)`: `limits - starts` pointwise. -/
def sliceDims (starts limits : List Nat) : List Nat :=
  List.zipWith (fun l s => l - s) limits starts

/-- `trsm(c, a, b, left_side, lower, trans_a, conj_a, diag)`: batched
triangular solve.  Returns the emitted call and the shape of the returned
tuple element 0. -/
def trsm (lwork : Nat) (a b : TensorShape)
    (left_side : Bool) (lower : Bool) (trans_a : Bool) (conj_a : Bool)
    (diag : Bool) : Except Err (CallSpec × TensorShape) :=
  if 2 ≤ b.dims.length then
    let m := matRows b.dims
    let n := matCols b.dims
    let num_bd := (batchDims b.dims).length
    let k := if left_side then m else n
    if batchDims b.dims ++ [k, k] ≠ a.dims ∨ a.dtype ≠ b.dtype then
      .error (.shapeMismatch a.dims b.dims)
    else if conj_a ∧ ¬ trans_a then
      .error .unsupportedConfiguration
    else
      let layout := layout2d num_bd
      .ok ({ kernel := "cublas_trsm_batched",
             operands := [⟨b.dtype, a.dims, layout⟩,
                          ⟨b.dtype, b.dims, layout⟩],
             results := [⟨b.dtype, b.dims, layout⟩,
                         ⟨.int8, [lwork], [0]⟩,
                         ⟨.int8, [lwork], [0]⟩] },
           ⟨b.dtype, b.dims⟩)
  else .error .rankError

/-- `getrf(c, a)`: LU decomposition.  Returns the emitted call and the
shapes of the three returned tuple elements (factored matrix, pivots,
per-batch status); the workspace (tuple element 3) is not returned. -/
def getrf (lwork : Nat) (a : TensorShape) :
    Except Err (CallSpec × List TensorShape) :=
  if 2 ≤ a.dims.length then
    let m := matRows a.dims
    let n := matCols a.dims
    let bd := batchDims a.dims
    let num_bd := bd.length
    let batch := _prod bd
    let kernel : String :=
      if batch > 1 ∧ m = n ∧ m / batch ≤ 128 then "cublas_getrf_batched"
      else "cusolver_getrf"
    let workspace : ShapeWithLayout :=
      if batch > 1 ∧ m = n ∧ m / batch ≤ 128 then ⟨.int8, [lwork], [0]⟩
      else ⟨a.dtype, [lwork], [0]⟩
    .ok ({ kernel := kernel,
           operands := [⟨a.dtype, bd ++ [m, n], layout2d num_bd⟩],
           results := [⟨a.dtype, bd ++ [m, n], layout2d num_bd⟩,
                       ⟨.int32, bd ++ [min m n], layout1d num_bd⟩,
                       ⟨.int32, bd, layout0d num_bd⟩,
                       workspace] },
         [⟨a.dtype, bd ++ [m, n]⟩, ⟨.int32, bd ++ [min m n]⟩, ⟨.int32, bd⟩])
  else .error .rankError

/-- `geqrf(c, a)`: QR decomposition.  Returns the emitted call and the
shapes of the three returned tuple elements (factored matrix, tau,
per-batch status); the workspace (tuple element 3) is not returned. -/
def geqrf (lwork : Nat) (a : TensorShape) :
    Except Err (CallSpec × List TensorShape) :=
  if 2 ≤ a.dims.length then
    let m := matRows a.dims
    let n := matCols a.dims
    let bd := batchDims a.dims
    let num_bd := bd.length
    .ok ({ kernel := "cusolver_geqrf",
           operands := [⟨a.dtype, bd ++ [m, n], layout2d num_bd⟩],
           results := [⟨a.dtype, bd ++ [m, n], layout2d num_bd⟩,
                       ⟨a.dtype, bd ++ [min m n], layout1d num_bd⟩,
                       ⟨.int32, bd, layout0d num_bd⟩,
                       ⟨a.dtype, [lwork], [0]⟩] },
         [⟨a.dtype, bd ++ [m, n]⟩, ⟨a.dtype, bd ++ [min m n]⟩,
          ⟨.int32, bd⟩])
  else .error .rankError

/-- `orgqr(c, a, tau)`: product of elementary Householder reflections.
The source checks `assert tau_dims[:-1] == dims[:-2]` and nothing else
about `tau`; in particular `tau`'s element type is never compared with
`a`'s, and the call declares `tau` with `a`'s dtype.  `tau_dims[-1]` on an
empty tuple would raise `IndexError`. -/
def orgqr (lwork : Nat) (a tau : TensorShape) :
    Except Err (CallSpec × List TensorShape) :=
  if 2 ≤ a.dims.length then
    let m := matRows a.dims
    let n := matCols a.dims
    let bd := batchDims a.dims
    let num_bd := bd.length
    if tau.dims.dropLast ≠ bd then
      .error (.shapeMismatch tau.dims.dropLast bd)
    else
      match tau.dims.getLast? with
      | none => .error .indexError
      | some k =>
        .ok ({ kernel := "cusolver_orgqr",
               operands := [⟨a.dtype, bd ++ [m, n], layout2d num_bd⟩,
                            ⟨a.dtype, bd ++ [k], layout1d num_bd⟩],
               results := [⟨a.dtype, bd ++ [m, n], layout2d num_bd⟩,
                           ⟨.int32, bd, layout0d num_bd⟩,
                           ⟨a.dtype, [lwork], [0]⟩] },
             [⟨a.dtype, bd ++ [m, n]⟩, ⟨.int32, bd⟩])
  else .error .rankError

/-- `syevd(c, a, lower)`: symmetric (Hermitian) eigendecomposition.
Selects the Jacobi kernel for side length `n <= 32`, the standard kernel
otherwise; the eigenvalue tuple element has dtype `_real_type(dtype)`. -/
def syevd (lwork : Nat) (a : TensorShape) (lower : Bool) :
    Except Err (CallSpec × List TensorShape) :=
  if 2 ≤ a.dims.length then
    let m := matRows a.dims
    let n := matCols a.dims
    if m ≠ n then .error .dimensionMismatch
    else
      let bd := batchDims a.dims
      let num_bd := bd.length
      let layout := layout2d num_bd
      let kernel : String :=
        if n ≤ 32 then "cusolver_syevj" else "cusolver_syevd"
      match _real_type a.dtype with
      | .error e => .error e
      | .ok eigvals_type =>
        .ok ({ kernel := kernel,
               operands := [⟨a.dtype, a.dims, layout⟩],
               results := [⟨a.dtype, a.dims, layout⟩,
                           ⟨eigvals_type, bd ++ [n], layout1d num_bd⟩,
                           ⟨.int32, bd, layout0d num_bd⟩,
                           ⟨a.dtype, [lwork], [0]⟩] },
             [⟨a.dtype, a.dims⟩, ⟨eigvals_type, bd ++ [n]⟩,
              ⟨.int32, bd⟩])
  else .error .rankError

/-- Result of `gesvd`: the dimensions handed to
`build_gesvd_descriptor` (after the `m < n` swap), the emitted call, and
the shapes of the four returned values `s`, `u`, `vt`, `info` (after the
post-call `Slice` when `full_matrices` is false). -/
structure GesvdEmit where
  descRows : Nat
  descCols : Nat
  spec : CallSpec
  s : TensorShape
  u : TensorShape
  vt : TensorShape
  info : TensorShape
  deriving DecidableEq, Repr

/-- `gesvd(c, a, full_matrices, compute_uv)`: singular value
decomposition, unbatched (`b = 1`); `m, n = a_shape.dimensions()` requires
rank exactly 2 (a rank mismatch raises at the tuple unpacking, modelled as
`rankError`). -/
def gesvd (lwork : Nat) (a : TensorShape)
    (full_matrices : Bool) (compute_uv : Bool) : Except Err GesvdEmit :=
  match a.dims with
  | [m, n] =>
    match _real_type a.dtype with
    | .error e => .error e
    | .ok singular_vals_dtype =>
      if m < n then
        let spec : CallSpec :=
          { kernel := "cusolver_gesvd",
            operands := [⟨a.dtype, [m, n], [1, 0]⟩],
            results := [⟨a.dtype, [m, n], [1, 0]⟩,
                        ⟨singular_vals_dtype, [min m n], [0]⟩,
                        ⟨a.dtype, [n, n], [1, 0]⟩,
                        ⟨a.dtype, [m, m], [1, 0]⟩,
                        ⟨.int32, [], []⟩,
                        ⟨a.dtype, [lwork], [0]⟩] }
        let u : TensorShape := ⟨a.dtype, [m, m]⟩
        let vt : TensorShape := ⟨a.dtype, [n, n]⟩
        if ¬ full_matrices then
          .ok ⟨n, m, spec, ⟨singular_vals_dtype, [min m n]⟩,
               ⟨a.dtype, sliceDims [0, 0] [m, min m n]⟩,
               ⟨a.dtype, sliceDims [0, 0] [min m n, n]⟩, ⟨.int32, []⟩⟩
        else
          .ok ⟨n, m, spec, ⟨singular_vals_dtype, [min m n]⟩, u, vt,
               ⟨.int32, []⟩⟩
      else
        let spec : CallSpec :=
          { kernel := "cusolver_gesvd",
            operands := [⟨a.dtype, [m, n], [0, 1]⟩],
            results := [⟨a.dtype, [m, n], [0, 1]⟩,
                        ⟨singular_vals_dtype, [min m n], [0]⟩,
                        ⟨a.dtype, [m, m], [0, 1]⟩,
                        ⟨a.dtype, [n, n], [0, 1]⟩,
                        ⟨.int32, [], []⟩,
                        ⟨a.dtype, [lwork], [0]⟩] }
        let u : TensorShape := ⟨a.dtype, [m, m]⟩
        let vt : TensorShape := ⟨a.dtype, [n, n]⟩
        if ¬ full_matrices then
          .ok ⟨m, n, spec, ⟨singular_vals_dtype, [min m n]⟩,
               ⟨a.dtype, sliceDims [0, 0] [m, min m n]⟩,
               ⟨a.dtype, sliceDims [0, 0] [min m n, n]⟩, ⟨.int32, []⟩⟩
        else
          .ok ⟨m, n, spec, ⟨singular_vals_dtype, [min m n]⟩, u, vt,
               ⟨.int32, []⟩⟩
  | _ => .error .rankError

theorem length_append2 (bd : List Nat) (m n : Nat) :
    (bd ++ [m, n]).length = bd.length + 2 := by
  simp

theorem batchDims_append2 (bd : List Nat) (m n : Nat) :
    batchDims (bd ++ [m, n]) = bd := by
  simp [batchDims]

theorem matRows_append2 (bd : List Nat) (m n : Nat) :
    matRows (bd ++ [m, n]) = m := by
  unfold matRows
  rw [length_append2, Nat.add_sub_cancel,
    List.getD_append_right bd [m, n] 0 bd.length le_rfl, Nat.sub_self]
  rfl

theorem matCols_append2 (bd : List Nat) (m n : Nat) :
    matCols (bd ++ [m, n]) = n := by
  unfold matCols
  rw [length_append2, show bd.length + 2 - 1 = bd.length + 1 by omega,
    List.getD_append_right bd [m, n] 0 (bd.length + 1) (by omega),
    Nat.add_sub_cancel_left]
  rfl

theorem two_le_length_append2 (bd : List Nat) (m n : Nat) :
    2 ≤ (bd ++ [m, n]).length := by
  rw [length_append2]; omega

/-- C1: for an LU factorization request with batch dimensions `bd`
(product `batch_count`) and trailing matrix dimensions `(m, n)`, the
batched-direct kernel `cublas_getrf_batched` is selected exactly when
`batch_count > 1` and `m = n` and `m / batch_count ≤ 128` (integer
division), and otherwise `cusolver_getrf` is selected; in particular
`batch_count = 4, m = n = 64` selects the batched-direct kernel,
`batch_count = 4, m = n = 1024` and `batch_count = 1, m = n = 64` select
the general kernel. -/
theorem getrf_kernel_selection :
    (∀ (lwork : Nat) (dt : Dtype) (bd : List Nat) (m n : Nat),
      Except.map (fun p => p.1.kernel) (getrf lwork ⟨dt, bd ++ [m, n]⟩) =
        .ok (if _prod bd > 1 ∧ m = n ∧ m / _prod bd ≤ 128
             then "cublas_getrf_batched" else "cusolver_getrf")) ∧
    Except.map (fun p => p.1.kernel) (getrf 0 ⟨.float32, [4, 64, 64]⟩) =
      .ok "cublas_getrf_batched" ∧
    Except.map (fun p => p.1.kernel) (getrf 0 ⟨.float32, [4, 1024, 1024]⟩) =
      .ok "cusolver_getrf" ∧
    Except.map (fun p => p.1.kernel) (getrf 0 ⟨.float32, [64, 64]⟩) =
      .ok "cusolver_getrf" := by
  refine ⟨?_, rfl, rfl, rfl⟩
  intro lwork dt bd m n
  unfold getrf
  rw [if_pos (two_le_length_append2 bd m n)]
  simp only [batchDims_append2, matRows_append2, matCols_append2, Except.map]

/-- C7: `_real_type` maps float32 to float32, float64 to float64,
complex64 to float32 and complex128 to float64, fails with
`unsupportedType` on every other dtype, and is idempotent on the
supported set: whenever it succeeds, its (real) result maps to itself. -/
theorem real_type_spec :
    _real_type .float32 = .ok .float32 ∧
    _real_type .float64 = .ok .float64 ∧
    _real_type .complex64 = .ok .float32 ∧
    _real_type .complex128 = .ok .float64 ∧
    (∀ d : Dtype, d ≠ .float32 → d ≠ .float64 → d ≠ .complex64 →
      d ≠ .complex128 → _real_type d = .error (.unsupportedType d)) ∧
    (∀ d r : Dtype, _real_type d = .ok r → _real_type r = .ok r) := by
  refine ⟨rfl, rfl, rfl, rfl, ?_, ?_⟩ <;> decide

/-- Witness for C7: `_real_type` rejects int32, and applying it to the
result of `_real_type complex64` (namely float32) returns float32. -/
theorem real_type_spec_witness :
    _real_type .int32 = .error (.unsupportedType .int32) ∧
    _real_type .float32 = .ok .float32 :=
  ⟨real_type_spec.2.2.2.2.1 .int32 (by decide) (by decide) (by decide)
      (by decide),
   real_type_spec.2.2.2.2.2 .complex64 .float32 real_type_spec.2.2.1⟩

/-- C10: for a QR factorization on a tensor of batch dimensions `bd` and
trailing matrix shape `(m, n)`, the emitted call declares, in order, the
factored matrix `bd ++ [m, n]` of the input dtype, the tau vector
`bd ++ [min m n]` of the input dtype, a per-batch int32 status tensor of
shape `bd`, and a trailing workspace element; the function returns exactly
the first three, in that order, and not the workspace. -/
theorem geqrf_outputs (lwork : Nat) (dt : Dtype) (bd : List Nat) (m n : Nat) :
    (Except.map (fun p => p.2) (geqrf lwork ⟨dt, bd ++ [m, n]⟩) =
      .ok [⟨dt, bd ++ [m, n]⟩, ⟨dt, bd ++ [min m n]⟩, ⟨.int32, bd⟩]) ∧
    (Except.map (fun p => p.1.results.map (fun r => (r.dtype, r.dims)))
        (geqrf lwork ⟨dt, bd ++ [m, n]⟩) =
      .ok [(dt, bd ++ [m, n]), (dt, bd ++ [min m n]), (Dtype.int32, bd),
           (dt, [lwork])]) := by
  unfold geqrf
  rw [if_pos (two_le_length_append2 bd m n)]
  simp only [batchDims_append2, matRows_append2, matCols_append2, Except.map,
    List.map]
  exact ⟨trivial, trivial⟩

/-- C5: a triangular solve whose triangular operand's dimensions are not
the right-hand side's batch prefix followed by `(k, k)` (with `k` the row
count of `b` for a left-side solve and the column count otherwise), or
whose operands' element types differ, fails with `shapeMismatch` naming
the two shapes; no call is emitted (the result carries no `CallSpec`). -/
theorem trsm_shape_mismatch (lwork : Nat) (a b : TensorShape)
    (ls lo ta ca d : Bool) (hrank : 2 ≤ b.dims.length)
    (hmm : a.dims ≠ batchDims b.dims ++
        [if ls then matRows b.dims else matCols b.dims,
         if ls then matRows b.dims else matCols b.dims] ∨
      a.dtype ≠ b.dtype) :
    trsm lwork a b ls lo ta ca d = .error (.shapeMismatch a.dims b.dims) := by
  simp only [trsm]
  rw [if_pos hrank, if_pos ?_]
  rcases hmm with h | h
  · exact Or.inl (fun he => h he.symm)
  · exact Or.inr h

/-- Witness for C5: a left-side solve with right-hand side of shape
`(3, 3)` and a `(2, 2)` triangular operand fails with `shapeMismatch`. -/
theorem trsm_shape_mismatch_witness :
    trsm 5 ⟨.float32, [2, 2]⟩ ⟨.float32, [3, 3]⟩ true false true false
        false = .error (.shapeMismatch [2, 2] [3, 3]) :=
  trsm_shape_mismatch 5 ⟨.float32, [2, 2]⟩ ⟨.float32, [3, 3]⟩ true false
    true false false (by decide) (Or.inl (by decide))

/-- Counterexample to C6 as stated: a request with `conj_a = true`,
`trans_a = false` whose operands also fail the shape check does not fail
with `unsupportedConfiguration` — the shape check runs first, so it fails
with `shapeMismatch`. -/
theorem trsm_conj_counterexample :
    trsm 5 ⟨.float32, [2, 2]⟩ ⟨.float32, [3, 3]⟩ true false false true
        false = .error (.shapeMismatch [2, 2] [3, 3]) ∧
    Err.shapeMismatch [2, 2] [3, 3] ≠ Err.unsupportedConfiguration :=
  ⟨rfl, by decide⟩

/-- C6 (amended): a triangular solve request with `conj_a = true` and
`trans_a = false` whose operands pass the shape-compatibility check fails
with `unsupportedConfiguration` and emits no call; for every other
combination of `conj_a` and `trans_a` this failure never occurs, whatever
the operands. -/
theorem trsm_conj_requires_trans :
    (∀ (lwork : Nat) (a b : TensorShape) (ls lo d : Bool),
      2 ≤ b.dims.length →
      a.dims = batchDims b.dims ++
        [if ls then matRows b.dims else matCols b.dims,
         if ls then matRows b.dims else matCols b.dims] →
      a.dtype = b.dtype →
      trsm lwork a b ls lo false true d =
        .error .unsupportedConfiguration) ∧
    (∀ (lwork : Nat) (a b : TensorShape) (ls lo ta ca d : Bool),
      ¬ (ca = true ∧ ta = false) →
      trsm lwork a b ls lo ta ca d ≠ .error .unsupportedConfiguration) := by
  constructor
  · intro lwork a b ls lo d hrank hdims hdt
    simp only [trsm]
    rw [if_pos hrank, if_neg (by push_neg; exact ⟨hdims.symm, hdt⟩),
      if_pos (by simp)]
  · intro lwork a b ls lo ta ca d hflags
    simp only [trsm]
    by_cases h1 : 2 ≤ b.dims.length
    · rw [if_pos h1]
      by_cases h2 : batchDims b.dims ++
          [if ls then matRows b.dims else matCols b.dims,
           if ls then matRows b.dims else matCols b.dims] ≠ a.dims ∨
          a.dtype ≠ b.dtype
      · rw [if_pos h2]
        simp
      · rw [if_neg h2]
        by_cases h3 : ca = true ∧ ¬ ta = true
        · exact absurd ⟨h3.1, by simpa using h3.2⟩ hflags
        · rw [if_neg h3]
          simp
    · rw [if_neg h1]
      simp

/-- Witness for C6: with compatible `(3, 3)`-shaped operands and
`conj_a = true, trans_a = false` the result is `unsupportedConfiguration`;
with `conj_a = true, trans_a = true` it is not. -/
theorem trsm_conj_requires_trans_witness :
    trsm 5 ⟨.float32, [3, 3]⟩ ⟨.float32, [3, 3]⟩ true false false true
        false = .error .unsupportedConfiguration ∧
    trsm 5 ⟨.float32, [3, 3]⟩ ⟨.float32, [3, 3]⟩ true false true true
        false ≠ .error .unsupportedConfiguration :=
  ⟨trsm_conj_requires_trans.1 5 ⟨.float32, [3, 3]⟩ ⟨.float32, [3, 3]⟩ true
      false false (by decide) (by decide) (by decide),
   trsm_conj_requires_trans.2 5 ⟨.float32, [3, 3]⟩ ⟨.float32, [3, 3]⟩ true
      false true true false (by decide)⟩

/-- Counterexample to C9 as stated: `orgqr` never compares the two
operands' element types — with a float32 matrix and a float64 tau vector
whose batch prefix matches, no failure occurs and a call is issued. -/
theorem orgqr_dtype_counterexample :
    (orgqr 9 ⟨.float32, [3, 3]⟩ ⟨.float64, [3]⟩).isOk = true ∧
    Dtype.float64 ≠ Dtype.float32 :=
  ⟨rfl, by decide⟩

/-- C9 (amended): `orgqr` fails (with the batch-prefix shape mismatch,
emitting no call) exactly when the tau vector's batch prefix differs from
the matrix's batch prefix; the operands' element types are never compared:
when the prefix matches, a call is issued even for disagreeing element
types, and both operands are declared with the matrix's element type. -/
theorem orgqr_prefix_check :
    (∀ (lwork : Nat) (a tau : TensorShape), 2 ≤ a.dims.length →
      tau.dims.dropLast ≠ batchDims a.dims →
      orgqr lwork a tau =
        .error (.shapeMismatch tau.dims.dropLast (batchDims a.dims))) ∧
    (∀ (lwork : Nat) (a tau : TensorShape) (ks : Nat),
      2 ≤ a.dims.length → tau.dims.dropLast = batchDims a.dims →
      tau.dims.getLast? = some ks →
      Except.map (fun p => p.1.operands.map (fun o => o.dtype))
          (orgqr lwork a tau) = .ok [a.dtype, a.dtype]) := by
  constructor
  · intro lwork a tau hrank hpre
    simp only [orgqr]
    rw [if_pos hrank, if_pos hpre]
  · intro lwork a tau ks hrank hpre hlast
    simp only [orgqr]
    rw [if_pos hrank, if_neg (by simpa using hpre), hlast]
    rfl

/-- Witness for C9: with matching empty batch prefixes and differing
element types (float32 matrix, float64 tau), the call is issued with both
operands declared float32; with a mismatching prefix, `orgqr` fails. -/
theorem orgqr_prefix_check_witness :
    Except.map (fun p => p.1.operands.map (fun o => o.dtype))
        (orgqr 9 ⟨.float32, [3, 3]⟩ ⟨.float64, [3]⟩) =
      .ok [Dtype.float32, Dtype.float32] ∧
    orgqr 9 ⟨.float32, [2, 3, 3]⟩ ⟨.float32, [4, 3]⟩ =
      .error (.shapeMismatch [4] [2]) :=
  ⟨orgqr_prefix_check.2 9 ⟨.float32, [3, 3]⟩ ⟨.float64, [3]⟩ 3 (by decide)
      (by decide) (by decide),
   orgqr_prefix_check.1 9 ⟨.float32, [2, 3, 3]⟩ ⟨.float32, [4, 3]⟩
      (by decide) (by decide)⟩

/-- C8: decomposing the operand shape declared in the emitted call
(splitting off the two trailing dimensions and taking the product of the
rest) reproduces the original batch dimensions, batch count and matrix
dimensions exactly — shown for the LU operand and for the triangular
solve's right-hand-side operand (operand index 1). -/
theorem roundtrip_batchspec :
    (∀ (lwork : Nat) (dt : Dtype) (bd : List Nat) (m n : Nat),
      Except.map (fun p => p.1.operands.map (fun o =>
          (batchDims o.dims, _prod (batchDims o.dims), matRows o.dims,
           matCols o.dims))) (getrf lwork ⟨dt, bd ++ [m, n]⟩) =
        .ok [(bd, _prod bd, m, n)]) ∧
    (∀ (lwork : Nat) (dt : Dtype) (bd : List Nat) (m n : Nat)
        (ls lo ta ca d : Bool), ¬ (ca = true ∧ ta = false) →
      Except.map (fun p => (p.1.operands.map (fun o =>
          (batchDims o.dims, _prod (batchDims o.dims), matRows o.dims,
           matCols o.dims))).get? 1)
          (trsm lwork
            ⟨dt, bd ++ [if ls then m else n, if ls then m else n]⟩
            ⟨dt, bd ++ [m, n]⟩ ls lo ta ca d) =
        .ok (some (bd, _prod bd, m, n))) := by
  constructor
  · intro lwork dt bd m n
    unfold getrf
    rw [if_pos (two_le_length_append2 bd m n)]
    simp only [Except.map, List.map, batchDims_append2, matRows_append2,
      matCols_append2]
  · intro lwork dt bd m n ls lo ta ca d hflags
    simp only [trsm]
    rw [if_pos (two_le_length_append2 bd m n)]
    rw [if_neg (by
      push_neg
      refine ⟨?_, rfl⟩
      rw [batchDims_append2, matRows_append2, matCols_append2])]
    rw [if_neg (fun h => hflags ⟨h.1, by simpa using h.2⟩)]
    simp only [Except.map, List.map, batchDims_append2, matRows_append2,
      matCols_append2]
    rfl

/-- C4: for a symmetric/Hermitian eigendecomposition on a square matrix of
side length `n` (any batch dimensions `bd`, any supported dtype `dt` with
real-component type `evt`), the Jacobi-style kernel `cusolver_syevj` is
selected exactly when `n ≤ 32` (inclusive threshold) and `cusolver_syevd`
otherwise, and the eigenvalue result (tuple element 1, also returned as
output 1) always has element type `evt = _real_type dt`. -/
theorem syevd_kernel_and_eigvals (lwork : Nat) (dt evt : Dtype)
    (bd : List Nat) (n : Nat) (lower : Bool)
    (h : _real_type dt = .ok evt) :
    Except.map (fun p => (p.1.kernel, p.1.results.map (fun r => r.dtype),
        p.2.map (fun t => t.dtype)))
        (syevd lwork ⟨dt, bd ++ [n, n]⟩ lower) =
      .ok ((if n ≤ 32 then "cusolver_syevj" else "cusolver_syevd"),
           [dt, evt, Dtype.int32, dt], [dt, evt, Dtype.int32]) := by
  simp only [syevd]
  rw [if_pos (two_le_length_append2 bd n n)]
  simp only [matRows_append2, matCols_append2, batchDims_append2]
  rw [if_neg (by simp), h]
  rfl

/-- Witness for C4: boundary and example sizes — `n = 32` (complex64
input) selects the Jacobi kernel with float32 eigenvalues, `n = 64`
selects the standard kernel, `n = 16` selects the Jacobi kernel. -/
theorem syevd_kernel_and_eigvals_witness :
    Except.map (fun p => (p.1.kernel, p.1.results.map (fun r => r.dtype),
        p.2.map (fun t => t.dtype)))
        (syevd 7 ⟨.complex64, [32, 32]⟩ true) =
      .ok ("cusolver_syevj",
           [Dtype.complex64, Dtype.float32, Dtype.int32, Dtype.complex64],
           [Dtype.complex64, Dtype.float32, Dtype.int32]) ∧
    Except.map (fun p => (p.1.kernel, p.1.results.map (fun r => r.dtype),
        p.2.map (fun t => t.dtype)))
        (syevd 7 ⟨.float64, [64, 64]⟩ false) =
      .ok ("cusolver_syevd",
           [Dtype.float64, Dtype.float64, Dtype.int32, Dtype.float64],
           [Dtype.float64, Dtype.float64, Dtype.int32]) ∧
    Except.map (fun p => (p.1.kernel, p.1.results.map (fun r => r.dtype),
        p.2.map (fun t => t.dtype)))
        (syevd 7 ⟨.float32, [16, 16]⟩ true) =
      .ok ("cusolver_syevj",
           [Dtype.float32, Dtype.float32, Dtype.int32, Dtype.float32],
           [Dtype.float32, Dtype.float32, Dtype.int32]) :=
  ⟨syevd_kernel_and_eigvals 7 .complex64 .float32 [] 32 true rfl,
   syevd_kernel_and_eigvals 7 .float64 .float64 [] 64 false rfl,
   syevd_kernel_and_eigvals 7 .float32 .float32 [] 16 true rfl⟩

/-- C3: for an SVD on a rank-2 operand of shape `(m, n)` that succeeds:
the descriptor is built on the transposed problem (`(n, m)`) exactly when
`m < n`, and the outputs are swapped back so the returned `u` has shape
`(m, m)` and `vt` has shape `(n, n)` before truncation (`full_matrices =
true`); when `full_matrices = false`, `u` is truncated to
`(m, min m n)` and `vt` to `(min m n, n)`; moreover when `m < n` the
declared result tuple carries the `(n, n)` matrix at index 2 and the
`(m, m)` matrix at index 3, the slots from which `vt` and `u` are then
read (the swap-back). -/
theorem gesvd_transpose_truncation (lwork m n : Nat) (dt evt : Dtype)
    (fm cu : Bool) (hrt : _real_type dt = .ok evt) :
    (Except.map (fun e => (e.descRows, e.descCols, e.s.dims, e.u.dims,
        e.vt.dims, e.info.dims)) (gesvd lwork ⟨dt, [m, n]⟩ fm cu) =
      .ok ((if m < n then n else m), (if m < n then m else n), [min m n],
           (if fm then [m, m] else [m, min m n]),
           (if fm then [n, n] else [min m n, n]), ([] : List Nat))) ∧
    (m < n →
      Except.map (fun e => ((e.spec.results.map (fun r => r.dims)).get? 2,
          (e.spec.results.map (fun r => r.dims)).get? 3))
          (gesvd lwork ⟨dt, [m, n]⟩ fm cu) =
        .ok (some [n, n], some [m, m])) := by
  constructor
  · simp only [gesvd]
    rw [hrt]
    by_cases hmn : m < n <;> by_cases hfm : fm = true <;>
      simp [hmn, hfm, sliceDims, Except.map]
  · intro hmn
    simp only [gesvd]
    rw [hrt]
    by_cases hfm : fm = true <;> simp [hmn, hfm, Except.map]

/-- Witness for C3: `rows = 3, cols = 5, full_matrices = false` takes the
transposed-dispatch path (descriptor built on `(5, 3)`), and returns `u`
of shape `(3, 3)` and `vt` of shape `(3, 5)`; the declared tuple holds the
`(5, 5)` matrix at index 2 and the `(3, 3)` matrix at index 3. -/
theorem gesvd_transpose_truncation_witness :
    (Except.map (fun e => (e.descRows, e.descCols, e.s.dims, e.u.dims,
        e.vt.dims, e.info.dims)) (gesvd 7 ⟨.float32, [3, 5]⟩ false true) =
      .ok (5, 3, [3], [3, 3], [3, 5], ([] : List Nat))) ∧
    (Except.map (fun e => ((e.spec.results.map (fun r => r.dims)).get? 2,
        (e.spec.results.map (fun r => r.dims)).get? 3))
        (gesvd 7 ⟨.float32, [3, 5]⟩ false true) =
      .ok (some [5, 5], some [3, 3])) :=
  ⟨(gesvd_transpose_truncation 7 3 5 .float32 .float32 false true rfl).1,
   (gesvd_transpose_truncation 7 3 5 .float32 .float32 false true rfl).2
     (by decide)⟩

/-- Counterexample to C2 as stated: the layout convention does not hold
for singular value decomposition when `rows < cols` — for a `(3, 5)`
operand the call declares the matrix operand with layout `(1, 0)`, not
the convention's `layout2d 0 = (0, 1)`. -/
theorem layout_convention_counterexample :
    Except.map (fun e => e.spec.operands.map (fun o => o.layout))
        (gesvd 7 ⟨.float32, [3, 5]⟩ true true) = .ok [[1, 0]] ∧
    ([1, 0] : List Nat) ≠ layout2d 0 :=
  ⟨rfl, by decide⟩

/-- C2 (amended): for every accepted input with batch dimensions `bd`,
every operation declares `layout2d bd.length = (N, N+1, N-1, ..., 0)` for
each batched 2-D matrix operand and result, `layout1d bd.length =
(N, N-1, ..., 0)` for each 1-D per-batch derived tensor, and
`layout0d bd.length = (N-1, ..., 0)` for each per-batch scalar tensor
(flat workspaces get `(0,)`), identically across all operands and results
of one call — for every operation except singular value decomposition
with `rows < cols`, where every matrix operand and result is instead
declared with the transposed layout `(1, 0)` rather than
`layout2d 0 = (0, 1)`. -/
theorem layout_convention :
    (∀ (lwork : Nat) (dt : Dtype) (bd : List Nat) (m n : Nat)
        (ls lo ta ca d : Bool), ¬ (ca = true ∧ ta = false) →
      Except.map (fun p => (p.1.operands.map (fun o => o.layout),
          p.1.results.map (fun r => r.layout)))
          (trsm lwork
            ⟨dt, bd ++ [if ls then m else n, if ls then m else n]⟩
            ⟨dt, bd ++ [m, n]⟩ ls lo ta ca d) =
        .ok ([layout2d bd.length, layout2d bd.length],
             [layout2d bd.length, [0], [0]])) ∧
    (∀ (lwork : Nat) (dt : Dtype) (bd : List Nat) (m n : Nat),
      Except.map (fun p => (p.1.operands.map (fun o => o.layout),
          p.1.results.map (fun r => r.layout)))
          (getrf lwork ⟨dt, bd ++ [m, n]⟩) =
        .ok ([layout2d bd.length],
             [layout2d bd.length, layout1d bd.length, layout0d bd.length,
              [0]])) ∧
    (∀ (lwork : Nat) (dt : Dtype) (bd : List Nat) (m n : Nat),
      Except.map (fun p => (p.1.operands.map (fun o => o.layout),
          p.1.results.map (fun r => r.layout)))
          (geqrf lwork ⟨dt, bd ++ [m, n]⟩) =
        .ok ([layout2d bd.length],
             [layout2d bd.length, layout1d bd.length, layout0d bd.length,
              [0]])) ∧
    (∀ (lwork : Nat) (dt dt2 : Dtype) (bd : List Nat) (m n k : Nat),
      Except.map (fun p => (p.1.operands.map (fun o => o.layout),
          p.1.results.map (fun r => r.layout)))
          (orgqr lwork ⟨dt, bd ++ [m, n]⟩ ⟨dt2, bd ++ [k]⟩) =
        .ok ([layout2d bd.length, layout1d bd.length],
             [layout2d bd.length, layout0d bd.length, [0]])) ∧
    (∀ (lwork : Nat) (dt evt : Dtype) (bd : List Nat) (n : Nat)
        (lower : Bool), _real_type dt = .ok evt →
      Except.map (fun p => (p.1.operands.map (fun o => o.layout),
          p.1.results.map (fun r => r.layout)))
          (syevd lwork ⟨dt, bd ++ [n, n]⟩ lower) =
        .ok ([layout2d bd.length],
             [layout2d bd.length, layout1d bd.length, layout0d bd.length,
              [0]])) ∧
    (∀ (lwork m n : Nat) (dt evt : Dtype) (fm cu : Bool),
      _real_type dt = .ok evt →
      Except.map (fun e => (e.spec.operands.map (fun o => o.layout),
          e.spec.results.map (fun r => r.layout)))
          (gesvd lwork ⟨dt, [m, n]⟩ fm cu) =
        .ok (if m < n
             then ([[1, 0]], [[1, 0], [0], [1, 0], [1, 0], [], [0]])
             else ([layout2d 0],
                   [layout2d 0, layout1d 0, layout2d 0, layout2d 0,
                    layout0d 0, [0]]))) := by
  refine ⟨?_, ?_, ?_, ?_, ?_, ?_⟩
  · intro lwork dt bd m n ls lo ta ca d hflags
    simp only [trsm]
    rw [if_pos (two_le_length_append2 bd m n)]
    rw [if_neg (by
      push_neg
      refine ⟨?_, rfl⟩
      rw [batchDims_append2, matRows_append2, matCols_append2])]
    rw [if_neg (fun h => hflags ⟨h.1, by simpa using h.2⟩)]
    simp only [Except.map, List.map, batchDims_append2]
  · intro lwork dt bd m n
    unfold getrf
    rw [if_pos (two_le_length_append2 bd m n)]
    simp only [Except.map, List.map, batchDims_append2]
    split <;> rfl
  · intro lwork dt bd m n
    unfold geqrf
    rw [if_pos (two_le_length_append2 bd m n)]
    simp only [Except.map, List.map, batchDims_append2]
  · intro lwork dt dt2 bd m n k
    simp only [orgqr]
    rw [if_pos (two_le_length_append2 bd m n)]
    rw [if_neg (by simp [batchDims_append2])]
    rw [show (bd ++ [k]).getLast? = some k from List.getLast?_concat bd]
    simp only [Except.map, List.map, batchDims_append2]
  · intro lwork dt evt bd n lower hrt
    simp only [syevd]
    rw [if_pos (two_le_length_append2 bd n n)]
    simp only [matRows_append2, matCols_append2, batchDims_append2]
    rw [if_neg (by simp), hrt]
    rfl
  · intro lwork m n dt evt fm cu hrt
    simp only [gesvd]
    rw [hrt]
    by_cases hmn : m < n <;> by_cases hfm : fm = true <;>
      simp [hmn, hfm, Except.map, layout2d, layout1d, layout0d,
        List.range_succ]

/-- Witness for C2's amended theorem: one batched trsm call, one batched
symmetric eigendecomposition, and one `rows < cols` SVD, with the
hypotheses discharged at concrete inputs. -/
theorem layout_convention_witness :
    Except.map (fun p => (p.1.operands.map (fun o => o.layout),
        p.1.results.map (fun r => r.layout)))
        (trsm 5 ⟨.float32, [2, 3, 3]⟩ ⟨.float32, [2, 3, 4]⟩ true false
          false false false) =
      .ok ([[1, 2, 0], [1, 2, 0]], [[1, 2, 0], [0], [0]]) ∧
    Except.map (fun p => (p.1.operands.map (fun o => o.layout),
        p.1.results.map (fun r => r.layout)))
        (syevd 7 ⟨.complex128, [2, 4, 4]⟩ true) =
      .ok ([[1, 2, 0]], [[1, 2, 0], [1, 0], [0], [0]]) ∧
    Except.map (fun e => (e.spec.operands.map (fun o => o.layout),
        e.spec.results.map (fun r => r.layout)))
        (gesvd 7 ⟨.float32, [3, 5]⟩ true true) =
      .ok ([[1, 0]], [[1, 0], [0], [1, 0], [1, 0], [], [0]]) :=
  ⟨layout_convention.1 5 .float32 [2] 3 4 true false false false false
      (by decide),
   layout_convention.2.2.2.2.1 7 .complex128 .float64 [2] 4 true rfl,
   layout_convention.2.2.2.2.2 7 3 5 .float32 .float32 true true rfl⟩

/-- Witness for C8: concrete round trips — the LU operand declared for a
`[4, 64, 64]` input decomposes back to batch dims `[4]`, batch count 4 and
matrix dims `(64, 64)`; the triangular solve right-hand-side operand for a
`[2, 3, 4]` input decomposes back to `[2]`, 2, `(3, 4)`. -/
theorem roundtrip_batchspec_witness :
    Except.map (fun p => p.1.operands.map (fun o =>
        (batchDims o.dims, _prod (batchDims o.dims), matRows o.dims,
         matCols o.dims))) (getrf 9 ⟨.float32, [4, 64, 64]⟩) =
      .ok [([4], 4, 64, 64)] ∧
    Except.map (fun p => (p.1.operands.map (fun o =>
        (batchDims o.dims, _prod (batchDims o.dims), matRows o.dims,
         matCols o.dims))).get? 1)
        (trsm 5 ⟨.float32, [2, 3, 3]⟩ ⟨.float32, [2, 3, 4]⟩ true false
          false false false) =
      .ok (some ([2], 2, 3, 4)) :=
  ⟨roundtrip_batchspec.1 9 .float32 [4] 64 64,
   roundtrip_batchspec.2 5 .float32 [2] 3 4 true false false false false
     (by decide)⟩
